import Mathlib

/-! MyPropertyTypeCustomization

A shallow embedding of `Source/BomberEditor/Private/MyPropertyTypeCustomization.cpp`.

The customization object lives inside a host editor.  Everything the host owns
(property handles, Slate widgets, the children builder of the details panel) is
represented by plain data the code reads and writes:

* a shared pointer is an `Option` of an identifier (`none` is `nullptr`);
* a weak pointer is an `Option` of an identifier into a widget store whose
  entries are `none` once the widget has been destroyed, so `Pin` succeeds
  exactly on a live widget;
* `IDetailChildrenBuilder` is the list of rows added so far;
* calls that mutate a property handle are appended to a call log.

Types and members declared in the header or in the engine, which are not part
of the source file, are parameters (`Engine`, `ClassDecl`).
-/

namespace MyPropertyTypeCustomization

/-- Engine types and conversions the source uses but does not define. -/
structure Engine where
  /-- The engine's name type. -/
  FName : Type
  /-- The comparison `operator==` / `operator!=` on names. -/
  FNameDecEq : DecidableEq FName
  /-- The constant `NAME_None`. -/
  NAME_None : FName
  /-- The conversion `FName::ToString`. -/
  ToString : FName → String
  /-- The converting constructor `FName(const TCHAR*)`, used by `ValueName = *ValueString`. -/
  MakeName : String → FName
  /-- The engine's display-text type. -/
  FText : Type
  /-- The conversion `FText::FromString`. -/
  FromString : String → FText
  /-- The enumeration `EVisibility`. -/
  EVisibility : Type

instance (E : Engine) : DecidableEq E.FName := E.FNameDecEq

/-- Identifier of a property handle object (`IPropertyHandle`). -/
abbrev HandleId := Nat

/-- Identifier of a Slate widget inside its store. -/
abbrev WidgetId := Nat

/-- Identifier of a `UObject`. -/
abbrev ObjectId := Nat

/-- The width of `uint32`. -/
def UINT32_SIZE : Nat := 4294967296

/-- An `FProperty` as far as the source looks at it: its `GetFName()`. -/
structure FProperty (E : Engine) where
  GetFName : E.FName

/-- A property handle object as far as the source reads it. -/
structure IPropertyHandle (E : Engine) where
  /-- Result of `GetProperty()`, `none` for `nullptr`. -/
  GetProperty : Option (FProperty E)
  /-- String left in the out-parameter of `GetValueAsDisplayString`. -/
  GetValueAsDisplayString : String
  /-- Result of `GetPropertyDisplayName()`. -/
  GetPropertyDisplayName : E.FText
  /-- Array filled by `GetOuterObjects`; an entry may be a null pointer. -/
  GetOuterObjects : List (Option ObjectId)
  /-- Number stored by `GetNumChildren` into its `uint32` out-parameter. -/
  NumChildren : Nat
  /-- Result of `GetChildHandle(Index)`, `none` for a null shared pointer. -/
  GetChildHandle : Nat → Option HandleId

/-- Value read from the `uint32` out-parameter of `GetNumChildren`. -/
def IPropertyHandle.GetNumChildren {E : Engine} (h : IPropertyHandle E) : Nat :=
  h.NumChildren % UINT32_SIZE

/-- Member functions the source binds to delegates. -/
inductive Delegate where
  | RefreshCustomProperty
  | OnCustomPropertyChosen
  deriving DecidableEq, Repr

/-- Mutating calls made on property handles, in call order. -/
inductive HandleCall (E : Engine) where
  /-- The call `SetOnChildPropertyValueChanged(FSimpleDelegate::CreateSP(this, ...))`. -/
  | SetOnChildPropertyValueChanged (Handle : HandleId) (Bound : Delegate)
  /-- The call `SetValue(NewValue)`. -/
  | SetValue (Handle : HandleId) (NewValue : E.FName)

/-- An `STextBlock` widget. -/
structure STextBlock (E : Engine) where
  Text : E.FText
  /-- Whether `.Font(IDetailLayoutBuilder::GetDetailFont())` was applied. -/
  DetailFont : Bool

/-- Arrays a combo box can take its options from, by address. -/
inductive OptionsArray where
  /-- The member `SearchableComboBoxValuesInternal` of the customization. -/
  | SearchableComboBoxValuesInternal
  deriving DecidableEq, Repr

/-- An `SSearchableComboBox` widget. -/
structure SSearchableComboBox where
  /-- Argument of `.OptionsSource(...)`, `none` when never set. -/
  OptionsSource : Option OptionsArray
  /-- Whether `OnGenerateWidget` builds a text block from the item string. -/
  GeneratesTextBlock : Bool
  /-- Argument of `.OnSelectionChanged(this, ...)`. -/
  OnSelectionChanged : Option Delegate
  /-- Argument of `.ContentPadding(2.f)`. -/
  ContentPadding : Nat
  /-- Argument of `.MaxListHeight(200.f)`. -/
  MaxListHeight : Nat
  /-- The enabled state, set by `.IsEnabled(...)` and `SetEnabled(...)`. -/
  IsEnabled : Bool
  /-- The text block placed in `.Content()[...]`. -/
  Content : Option WidgetId
  /-- Number of `RefreshOptions()` calls received. -/
  RefreshOptionsCalls : Nat
  deriving DecidableEq, Repr

/-- The struct `FPropertyData`. -/
structure FPropertyData (E : Engine) where
  PropertyName : E.FName
  PropertyValue : E.FName
  /-- The member `TSharedPtr<IPropertyHandle> PropertyHandle`. -/
  PropertyHandle : Option HandleId
  bIsEnabled : Bool
  Visibility : E.EVisibility

/-- A row of the details panel added through `IDetailChildrenBuilder`. -/
inductive DetailRow (E : Engine) where
  /-- Row of `AddProperty(Handle).ShouldAutoExpand(..).IsEnabled(..).Visibility(..)`. -/
  | Property (Handle : HandleId) (ShouldAutoExpand : Bool) (IsEnabled : Bool)
      (Visibility : E.EVisibility)
  /-- Row of `AddCustomRow(FilterString).Visibility(..).NameContent()[..].ValueContent()[..]`:
  the name content is a text block, the value content a vertical box whose only
  slot holds a combo box. -/
  | Custom (FilterString : E.FText) (Visibility : E.EVisibility)
      (NameContent : WidgetId) (ValueContent : WidgetId)

/-- The children builder: the rows added so far, oldest first. -/
abbrev IDetailChildrenBuilder (E : Engine) := List (DetailRow E)

/-- Data members of `FMyPropertyTypeCustomization` used by the source file. -/
structure FMyPropertyTypeCustomization (E : Engine) where
  CustomProperty : FPropertyData E
  DefaultPropertiesData : List (FPropertyData E)
  MyPropertyOuterInternal : Option ObjectId
  SearchableComboBoxValuesInternal : List String
  /-- The member `TWeakPtr<STextBlock> RowTextWidgetInternal`. -/
  RowTextWidgetInternal : Option WidgetId
  /-- The member `TWeakPtr<SSearchableComboBox> SearchableComboBoxInternal`. -/
  SearchableComboBoxInternal : Option WidgetId

/-- The customization object together with the host objects it touches. -/
structure World (E : Engine) where
  This : FMyPropertyTypeCustomization E
  /-- The property handle objects. -/
  Handles : HandleId → IPropertyHandle E
  /-- Mutating calls received by property handles, oldest first.  What the host does
  on such a call (storing the value, notifying listeners) is not part of the source
  and is not represented. -/
  HandleCalls : List (HandleCall E)
  /-- The text block store; `none` marks a destroyed widget. -/
  TextBlocks : List (Option (STextBlock E))
  /-- The combo box store; `none` marks a destroyed widget. -/
  ComboBoxes : List (Option SSearchableComboBox)

/-- Declarations of the class header used by the source file. -/
structure ClassDecl (E : Engine) where
  /-- A default-constructed `FPropertyData`. -/
  DefaultPropertyData : FPropertyData E
  /-- The member function `IsAllowedEnableCustomProperty()`, taken as a query of the
  current state without side effects. -/
  IsAllowedEnableCustomProperty : World E → Bool
  /-- The member function `GetCustomPropertyValue()`, taken as a query of the current
  state without side effects. -/
  GetCustomPropertyValue : World E → E.FText

/-- The operation `TWeakPtr::Pin`: the widget and its identifier when it is alive. -/
def Pin {α : Type} (Store : List (Option α)) (Weak : Option WidgetId) : Option (WidgetId × α) :=
  match Weak with
  | none => none
  | some i =>
    match Store.get? i with
    | some (some Widget) => some (i, Widget)
    | _ => none

section Code

variable {E : Engine}

/-- Get property from handle. -/
def FPropertyData.GetProperty (w : World E) (self : FPropertyData E) : Option (FProperty E) :=
  match self.PropertyHandle with
  | some h => (w.Handles h).GetProperty
  | none => none

/-- Get property name by handle. -/
def FPropertyData.GetPropertyNameFromHandle (w : World E) (self : FPropertyData E) : E.FName :=
  match self.GetProperty w with
  | some CurrentProperty => CurrentProperty.GetFName
  | none => E.NAME_None

/-- Get FName value by property handle. -/
def FPropertyData.GetPropertyValueFromHandle (w : World E) (self : FPropertyData E) : E.FName :=
  match self.PropertyHandle with
  | some h => E.MakeName (w.Handles h).GetValueAsDisplayString
  | none => E.NAME_None

/-- Set FName value by property handle (the template at `T = FName`). -/
def FPropertyData.SetPropertyValueToHandle (w : World E) (self : FPropertyData E)
    (NewValue : E.FName) : World E :=
  match self.PropertyHandle with
  | some h => { w with HandleCalls := w.HandleCalls ++ [HandleCall.SetValue h NewValue] }
  | none => w

/-- Set the FName value into the property. -/
def SetCustomPropertyValue (w : World E) (Value : E.FName) : World E :=
  let StringToSet := E.ToString Value
  let w1 : World E :=
    { w with This := { w.This with
        CustomProperty := { w.This.CustomProperty with PropertyValue := Value } } }
  let w2 := w1.This.CustomProperty.SetPropertyValueToHandle w1 Value
  match Pin w2.TextBlocks w2.This.RowTextWidgetInternal with
  | some (i, RowTextWidget) =>
    { w2 with TextBlocks :=
        w2.TextBlocks.set i (some { RowTextWidget with Text := E.FromString StringToSet }) }
  | none => w2

/-- Set true to activate property, false to grey out it (read-only). -/
def SetCustomPropertyEnabled (D : ClassDecl E) (w : World E) (bEnabled : Bool) : World E :=
  let bIsAllowedEnableCustomProperty := D.IsAllowedEnableCustomProperty w
  if bEnabled && !bIsAllowedEnableCustomProperty then
    w
  else
    let w1 : World E :=
      match Pin w.ComboBoxes w.This.SearchableComboBoxInternal with
      | some (i, SearchableComboBox) =>
        { w with ComboBoxes :=
            w.ComboBoxes.set i (some { SearchableComboBox with IsEnabled := bEnabled }) }
      | none => w
    { w1 with This := { w1.This with
        CustomProperty := { w1.This.CustomProperty with bIsEnabled := bEnabled } } }

/-- Set new values for the list of selectable members. -/
def RefreshCustomProperty (w : World E) : World E :=
  match Pin w.ComboBoxes w.This.SearchableComboBoxInternal with
  | some (i, SearchableComboBox) =>
    { w with ComboBoxes :=
        w.ComboBoxes.set i (some { SearchableComboBox with
          RefreshOptionsCalls := SearchableComboBox.RefreshOptionsCalls + 1 }) }
  | none => w

/-- Will add the default searchable combo box. -/
def AddCustomPropertyRow (D : ClassDecl E) (w : World E) (PropertyDisplayText : E.FText)
    (ChildBuilder : IDetailChildrenBuilder E) : World E × IDetailChildrenBuilder E :=
  let w1 := RefreshCustomProperty w
  -- SNew(STextBlock).Text(GetCustomPropertyValue())
  let TextRowWidgetRef : WidgetId := w1.TextBlocks.length
  let w2 : World E :=
    { w1 with TextBlocks :=
        w1.TextBlocks ++ [some { Text := D.GetCustomPropertyValue w1, DetailFont := false }] }
  let w3 : World E := { w2 with This := { w2.This with RowTextWidgetInternal := some TextRowWidgetRef } }
  -- SNew(SSearchableComboBox)...
  let SearchableComboBoxRef : WidgetId := w3.ComboBoxes.length
  let w4 : World E :=
    { w3 with ComboBoxes := w3.ComboBoxes ++ [some {
        OptionsSource := some OptionsArray.SearchableComboBoxValuesInternal
        GeneratesTextBlock := true
        OnSelectionChanged := some Delegate.OnCustomPropertyChosen
        ContentPadding := 2
        MaxListHeight := 200
        IsEnabled := w3.This.CustomProperty.bIsEnabled
        Content := some TextRowWidgetRef
        RefreshOptionsCalls := 0 }] }
  let w5 : World E :=
    { w4 with This := { w4.This with SearchableComboBoxInternal := some SearchableComboBoxRef } }
  -- ChildBuilder.AddCustomRow(PropertyDisplayText)...
  let NameWidget : WidgetId := w5.TextBlocks.length
  let w6 : World E :=
    { w5 with TextBlocks :=
        w5.TextBlocks ++ [some { Text := PropertyDisplayText, DetailFont := true }] }
  (w6, ChildBuilder ++ [DetailRow.Custom PropertyDisplayText w6.This.CustomProperty.Visibility
    NameWidget SearchableComboBoxRef])

/-- Is called for each property on building its row. -/
def OnCustomizeChildren (D : ClassDecl E) (w : World E) (ChildBuilder : IDetailChildrenBuilder E)
    (PropertyData : FPropertyData E) : World E × IDetailChildrenBuilder E :=
  match PropertyData.PropertyHandle with
  | none => (w, ChildBuilder)
  | some Handle =>
    if PropertyData.PropertyName ≠ w.This.CustomProperty.PropertyName then
      -- Add each another property to the Details Panel without customization
      let AddedRow : DetailRow E :=
        DetailRow.Property Handle true PropertyData.bIsEnabled PropertyData.Visibility
      ({ w with This := { w.This with
          DefaultPropertiesData := w.This.DefaultPropertiesData ++ [PropertyData] } },
        ChildBuilder ++ [AddedRow])
    else
      -- Is custom property
      let w1 : World E := { w with This := { w.This with CustomProperty := PropertyData } }
      AddCustomPropertyRow D w1 (w1.Handles Handle).GetPropertyDisplayName ChildBuilder

/-- The property data built by the loop body of `CustomizeChildren` for one child index. -/
def ChildPropertyData (D : ClassDecl E) (w : World E) (PropertyHandle : HandleId)
    (ChildIndex : Nat) : FPropertyData E :=
  let PropertyData0 := D.DefaultPropertyData
  let PropertyData1 : FPropertyData E :=
    { PropertyData0 with PropertyHandle := (w.Handles PropertyHandle).GetChildHandle ChildIndex }
  let PropertyData2 : FPropertyData E :=
    { PropertyData1 with PropertyName := PropertyData1.GetPropertyNameFromHandle w }
  { PropertyData2 with PropertyValue := PropertyData2.GetPropertyValueFromHandle w }

/-- The `for` loop of `CustomizeChildren`, entered at `ChildIndex`.  The index stays
below `NumChildren`, itself below `2^32`, so `++ChildIndex` never wraps. -/
def CustomizeChildrenLoop (D : ClassDecl E) (PropertyHandle : HandleId) (NumChildren : Nat)
    (ChildIndex : Nat) (s : World E × IDetailChildrenBuilder E) :
    World E × IDetailChildrenBuilder E :=
  if ChildIndex < NumChildren then
    let PropertyData := ChildPropertyData D s.1 PropertyHandle ChildIndex
    CustomizeChildrenLoop D PropertyHandle NumChildren (ChildIndex + 1)
      (OnCustomizeChildren D s.1 s.2 PropertyData)
  else
    s
termination_by NumChildren - ChildIndex

/-- Called when the children of the property should be customized or extra rows added. -/
def CustomizeChildren (D : ClassDecl E) (w : World E) (PropertyHandle : HandleId)
    (ChildBuilder : IDetailChildrenBuilder E) : World E × IDetailChildrenBuilder E :=
  -- Find outer
  let OuterObjects := (w.Handles PropertyHandle).GetOuterObjects
  let w1 : World E :=
    { w with This := { w.This with
        MyPropertyOuterInternal :=
          match OuterObjects with
          | Outer :: _ => Outer
          | [] => none } }
  -- Bind to delegate
  let w2 : World E :=
    { w1 with HandleCalls := w1.HandleCalls ++
        [HandleCall.SetOnChildPropertyValueChanged PropertyHandle Delegate.RefreshCustomProperty] }
  let NumChildren := (w2.Handles PropertyHandle).GetNumChildren
  CustomizeChildrenLoop D PropertyHandle NumChildren 0 (w2, ChildBuilder)

/-- Is called to deactivate custom property. -/
def InvalidateCustomProperty (D : ClassDecl E) (w : World E) : World E :=
  let w1 := SetCustomPropertyEnabled D w false
  SetCustomPropertyValue w1 E.NAME_None

/-- Called when a member of the combo box is chosen. -/
def OnCustomPropertyChosen (w : World E) (SelectedStringPtr : Option String) : World E :=
  match SelectedStringPtr with
  | some SelectedString => SetCustomPropertyValue w (E.MakeName SelectedString)
  | none => w

end Code

/-! ## Vocabulary for stating what `CustomizeChildren` builds -/

section Vocabulary

variable {E : Engine}

/-- One pass through the body of the `for` loop of `CustomizeChildren`. -/
def LoopStep (D : ClassDecl E) (PropertyHandle : HandleId)
    (s : World E × IDetailChildrenBuilder E) (ChildIndex : Nat) :
    World E × IDetailChildrenBuilder E :=
  OnCustomizeChildren D s.1 s.2 (ChildPropertyData D s.1 PropertyHandle ChildIndex)

/-- The world in which the `for` loop of `CustomizeChildren` starts: the outer object
has been recorded and the delegate bound. -/
def LoopEntry (w : World E) (PropertyHandle : HandleId) : World E :=
  { w with
    This := { w.This with
      MyPropertyOuterInternal :=
        match (w.Handles PropertyHandle).GetOuterObjects with
        | Outer :: _ => Outer
        | [] => none }
    HandleCalls := w.HandleCalls ++
      [HandleCall.SetOnChildPropertyValueChanged PropertyHandle Delegate.RefreshCustomProperty] }

/-- The name a handle carries: the name of its property, `NAME_None` without one. -/
def NameOfHandle (w : World E) (h : HandleId) : E.FName :=
  match (w.Handles h).GetProperty with
  | some CurrentProperty => CurrentProperty.GetFName
  | none => E.NAME_None

/-- The value a handle carries: its display string taken as a name. -/
def ValueOfHandle (w : World E) (h : HandleId) : E.FName :=
  E.MakeName (w.Handles h).GetValueAsDisplayString

/-- The property data of a child: name and value read from the child's own handle,
the other fields as default-constructed. -/
def DataOfHandle (D : ClassDecl E) (w : World E) (h : HandleId) : FPropertyData E :=
  { PropertyName := NameOfHandle w h
    PropertyValue := ValueOfHandle w h
    PropertyHandle := some h
    bIsEnabled := D.DefaultPropertyData.bIsEnabled
    Visibility := D.DefaultPropertyData.Visibility }

/-- Whether the child at an index carries the designated custom property name. -/
def IsDesignated (w : World E) (Child : Nat → HandleId) (i : Nat) : Bool :=
  decide (NameOfHandle w (Child i) = w.This.CustomProperty.PropertyName)

/-- Number of designated children among the child indices below `n`. -/
def CustomCount (w : World E) (Child : Nat → HandleId) (n : Nat) : Nat :=
  ((List.range n).filter (IsDesignated w Child)).length

/-- The row expected for the child at index `i`: a custom row for a designated child
(its widgets are the ones created after those of the designated children before it),
a default row otherwise. -/
def RowOfChild (D : ClassDecl E) (w : World E) (Child : Nat → HandleId) (i : Nat) :
    DetailRow E :=
  if IsDesignated w Child i then
    DetailRow.Custom (w.Handles (Child i)).GetPropertyDisplayName
      D.DefaultPropertyData.Visibility
      (w.TextBlocks.length + 2 * CustomCount w Child i + 1)
      (w.ComboBoxes.length + CustomCount w Child i)
  else
    DetailRow.Property (Child i) true D.DefaultPropertyData.bIsEnabled
      D.DefaultPropertyData.Visibility

/-- What holds after the loop has processed the child indices below `n`. -/
def LoopInvariant (D : ClassDecl E) (w : World E) (ChildBuilder : IDetailChildrenBuilder E)
    (Child : Nat → HandleId) (n : Nat) (s : World E × IDetailChildrenBuilder E) : Prop :=
  s.1.Handles = w.Handles ∧
  s.1.This.CustomProperty.PropertyName = w.This.CustomProperty.PropertyName ∧
  s.2 = ChildBuilder ++ (List.range n).map (RowOfChild D w Child) ∧
  s.1.This.DefaultPropertiesData =
    w.This.DefaultPropertiesData ++
      ((List.range n).filter (fun i => !IsDesignated w Child i)).map
        (fun i => DataOfHandle D w (Child i)) ∧
  s.1.TextBlocks.length = w.TextBlocks.length + 2 * CustomCount w Child n ∧
  s.1.ComboBoxes.length = w.ComboBoxes.length + CustomCount w Child n

end Vocabulary

/-! ## Fixtures used to instantiate the theorems -/

/-- An engine whose names and texts are strings and whose visibility has two values. -/
def DemoEngine : Engine where
  FName := String
  FNameDecEq := inferInstance
  NAME_None := "None"
  ToString := id
  MakeName := id
  FText := String
  FromString := id
  EVisibility := Bool

/-- Handles of the demo world: handle `0` is a struct with three children, handles
`1`, `2`, `3`, named `Row`, `Column` and `Level`. -/
def DemoHandles : HandleId → IPropertyHandle DemoEngine
  | 0 => { GetProperty := some { GetFName := "Cell" }, GetValueAsDisplayString := "",
           GetPropertyDisplayName := "Cell", GetOuterObjects := [some 7], NumChildren := 3,
           GetChildHandle := fun i => if i < 3 then some (i + 1) else none }
  | 1 => { GetProperty := some { GetFName := "Row" }, GetValueAsDisplayString := "4",
           GetPropertyDisplayName := "Row", GetOuterObjects := [some 7], NumChildren := 0,
           GetChildHandle := fun _ => none }
  | 2 => { GetProperty := some { GetFName := "Column" }, GetValueAsDisplayString := "5",
           GetPropertyDisplayName := "Column", GetOuterObjects := [some 7], NumChildren := 0,
           GetChildHandle := fun _ => none }
  | _ => { GetProperty := some { GetFName := "Level" }, GetValueAsDisplayString := "Main",
           GetPropertyDisplayName := "Level", GetOuterObjects := [some 7], NumChildren := 0,
           GetChildHandle := fun _ => none }

/-- A world whose custom property is `Column`, with a live row text and a live,
enabled combo box. -/
def DemoWorld : World DemoEngine where
  This :=
    { CustomProperty :=
        { PropertyName := "Column", PropertyValue := "5", PropertyHandle := some 2,
          bIsEnabled := true, Visibility := true }
      DefaultPropertiesData := []
      MyPropertyOuterInternal := none
      SearchableComboBoxValuesInternal := ["5", "6"]
      RowTextWidgetInternal := some 0
      SearchableComboBoxInternal := some 0 }
  Handles := DemoHandles
  HandleCalls := []
  TextBlocks := [some { Text := "5", DetailFont := false }]
  ComboBoxes := [some { OptionsSource := some OptionsArray.SearchableComboBoxValuesInternal,
                        GeneratesTextBlock := true,
                        OnSelectionChanged := some Delegate.OnCustomPropertyChosen,
                        ContentPadding := 2, MaxListHeight := 200, IsEnabled := true,
                        Content := some 0, RefreshOptionsCalls := 0 }]

/-- A header in which enabling is allowed exactly when the outer object is known. -/
def DemoDecl : ClassDecl DemoEngine where
  DefaultPropertyData :=
    { PropertyName := "None", PropertyValue := "None", PropertyHandle := none,
      bIsEnabled := true, Visibility := true }
  IsAllowedEnableCustomProperty := fun w => w.This.MyPropertyOuterInternal.isSome
  GetCustomPropertyValue := fun w => w.This.CustomProperty.PropertyValue

/-- The property data of the child `Row` of the demo world. -/
def DemoRowData : FPropertyData DemoEngine :=
  { PropertyName := "Row", PropertyValue := "4", PropertyHandle := some 1,
    bIsEnabled := true, Visibility := false }

/-- The property data of the child `Column` of the demo world. -/
def DemoColumnData : FPropertyData DemoEngine :=
  { PropertyName := "Column", PropertyValue := "5", PropertyHandle := some 2,
    bIsEnabled := false, Visibility := true }

/-! ## Helper lemmas -/

section Lemmas

variable {E : Engine}

theorem Pin_some_iff {α : Type} (Store : List (Option α)) (Weak : Option WidgetId)
    (i : WidgetId) (Widget : α) :
    Pin Store Weak = some (i, Widget) ↔ Weak = some i ∧ Store.get? i = some (some Widget) := by
  unfold Pin
  cases Weak with
  | none => simp
  | some j =>
    simp only [Option.some.injEq]
    cases hj : Store.get? j with
    | none =>
      constructor
      · intro h; cases h
      · rintro ⟨rfl, h⟩; rw [hj] at h; cases h
    | some o =>
      cases o with
      | none =>
        constructor
        · intro h; cases h
        · rintro ⟨rfl, h⟩; rw [hj] at h; cases h
      | some a =>
        simp only [Option.some.injEq, Prod.mk.injEq]
        constructor
        · rintro ⟨rfl, rfl⟩; exact ⟨rfl, hj⟩
        · rintro ⟨rfl, h⟩; rw [hj] at h; simp at h; exact ⟨rfl, h⟩

theorem Pin_lt {α : Type} {Store : List (Option α)} {Weak : Option WidgetId}
    {i : WidgetId} {Widget : α} (h : Pin Store Weak = some (i, Widget)) : i < Store.length := by
  rw [Pin_some_iff] at h
  exact (List.get?_eq_some.mp h.2).1

theorem get_set_self {α : Type} (l : List α) (i : Nat) (a : α) (h : i < l.length) :
    (l.set i a).get? i = some a := by
  simp [List.get?_eq_getElem?, List.getElem?_set, h]

theorem SetPropertyValueToHandle_This (w : World E) (self : FPropertyData E) (v : E.FName) :
    (self.SetPropertyValueToHandle w v).This = w.This := by
  unfold FPropertyData.SetPropertyValueToHandle
  split <;> rfl

theorem SetPropertyValueToHandle_TextBlocks (w : World E) (self : FPropertyData E)
    (v : E.FName) : (self.SetPropertyValueToHandle w v).TextBlocks = w.TextBlocks := by
  unfold FPropertyData.SetPropertyValueToHandle
  split <;> rfl

theorem SetPropertyValueToHandle_ComboBoxes (w : World E) (self : FPropertyData E)
    (v : E.FName) : (self.SetPropertyValueToHandle w v).ComboBoxes = w.ComboBoxes := by
  unfold FPropertyData.SetPropertyValueToHandle
  split <;> rfl

theorem SetPropertyValueToHandle_Handles (w : World E) (self : FPropertyData E)
    (v : E.FName) : (self.SetPropertyValueToHandle w v).Handles = w.Handles := by
  unfold FPropertyData.SetPropertyValueToHandle
  split <;> rfl

theorem SetCustomPropertyValue_ComboBoxes (w : World E) (Value : E.FName) :
    (SetCustomPropertyValue w Value).ComboBoxes = w.ComboBoxes := by
  unfold SetCustomPropertyValue
  simp only
  split <;> simp [SetPropertyValueToHandle_ComboBoxes]

theorem SetCustomPropertyValue_Handles (w : World E) (Value : E.FName) :
    (SetCustomPropertyValue w Value).Handles = w.Handles := by
  unfold SetCustomPropertyValue
  simp only
  split <;> simp [SetPropertyValueToHandle_Handles]

theorem SetCustomPropertyValue_This (w : World E) (Value : E.FName) :
    (SetCustomPropertyValue w Value).This =
      { w.This with CustomProperty := { w.This.CustomProperty with PropertyValue := Value } } := by
  unfold SetCustomPropertyValue
  simp only
  split <;> simp [SetPropertyValueToHandle_This]

theorem SetCustomPropertyValue_HandleCalls (w : World E) (Value : E.FName) :
    (SetCustomPropertyValue w Value).HandleCalls =
      match w.This.CustomProperty.PropertyHandle with
      | some h => w.HandleCalls ++ [HandleCall.SetValue h Value]
      | none => w.HandleCalls := by
  unfold SetCustomPropertyValue
  simp only
  split <;> simp only [FPropertyData.SetPropertyValueToHandle] <;> split <;> rfl

theorem SetCustomPropertyValue_TextBlocks (w : World E) (Value : E.FName) :
    (SetCustomPropertyValue w Value).TextBlocks =
      match Pin w.TextBlocks w.This.RowTextWidgetInternal with
      | some (i, RowTextWidget) =>
        w.TextBlocks.set i (some { RowTextWidget with Text := E.FromString (E.ToString Value) })
      | none => w.TextBlocks := by
  unfold SetCustomPropertyValue
  simp only [SetPropertyValueToHandle_TextBlocks, SetPropertyValueToHandle_This]
  split <;> rename_i h <;> simp [h, SetPropertyValueToHandle_TextBlocks]

theorem SetCustomPropertyEnabled_false (D : ClassDecl E) (w : World E) :
    SetCustomPropertyEnabled D w false =
      { w with
        This := { w.This with
          CustomProperty := { w.This.CustomProperty with bIsEnabled := false } }
        ComboBoxes :=
          match Pin w.ComboBoxes w.This.SearchableComboBoxInternal with
          | some (i, SearchableComboBox) =>
            w.ComboBoxes.set i (some { SearchableComboBox with IsEnabled := false })
          | none => w.ComboBoxes } := by
  unfold SetCustomPropertyEnabled
  simp only [Bool.false_and, Bool.false_eq_true, if_false]
  split <;> simp_all

theorem RefreshCustomProperty_This (w : World E) : (RefreshCustomProperty w).This = w.This := by
  unfold RefreshCustomProperty
  split <;> rfl

theorem RefreshCustomProperty_Handles (w : World E) :
    (RefreshCustomProperty w).Handles = w.Handles := by
  unfold RefreshCustomProperty
  split <;> rfl

theorem RefreshCustomProperty_TextBlocks (w : World E) :
    (RefreshCustomProperty w).TextBlocks = w.TextBlocks := by
  unfold RefreshCustomProperty
  split <;> rfl

theorem RefreshCustomProperty_ComboBoxes_length (w : World E) :
    (RefreshCustomProperty w).ComboBoxes.length = w.ComboBoxes.length := by
  unfold RefreshCustomProperty
  split <;> simp

/-- The combo box constructed by `AddCustomPropertyRow`. -/
theorem AddCustomPropertyRow_ComboBoxes (D : ClassDecl E) (w : World E) (Text : E.FText)
    (ChildBuilder : IDetailChildrenBuilder E) :
    (AddCustomPropertyRow D w Text ChildBuilder).1.ComboBoxes =
      (RefreshCustomProperty w).ComboBoxes ++ [some {
        OptionsSource := some OptionsArray.SearchableComboBoxValuesInternal
        GeneratesTextBlock := true
        OnSelectionChanged := some Delegate.OnCustomPropertyChosen
        ContentPadding := 2
        MaxListHeight := 200
        IsEnabled := w.This.CustomProperty.bIsEnabled
        Content := some w.TextBlocks.length
        RefreshOptionsCalls := 0 }] := by
  simp [AddCustomPropertyRow, RefreshCustomProperty_This, RefreshCustomProperty_TextBlocks]

theorem AddCustomPropertyRow_TextBlocks (D : ClassDecl E) (w : World E) (Text : E.FText)
    (ChildBuilder : IDetailChildrenBuilder E) :
    (AddCustomPropertyRow D w Text ChildBuilder).1.TextBlocks =
      w.TextBlocks ++ [some { Text := D.GetCustomPropertyValue (RefreshCustomProperty w),
                              DetailFont := false },
                       some { Text := Text, DetailFont := true }] := by
  simp [AddCustomPropertyRow, RefreshCustomProperty_TextBlocks]

theorem AddCustomPropertyRow_This (D : ClassDecl E) (w : World E) (Text : E.FText)
    (ChildBuilder : IDetailChildrenBuilder E) :
    (AddCustomPropertyRow D w Text ChildBuilder).1.This =
      { w.This with
        RowTextWidgetInternal := some w.TextBlocks.length
        SearchableComboBoxInternal := some w.ComboBoxes.length } := by
  simp [AddCustomPropertyRow, RefreshCustomProperty_This, RefreshCustomProperty_TextBlocks,
    RefreshCustomProperty_ComboBoxes_length]

theorem AddCustomPropertyRow_Handles (D : ClassDecl E) (w : World E) (Text : E.FText)
    (ChildBuilder : IDetailChildrenBuilder E) :
    (AddCustomPropertyRow D w Text ChildBuilder).1.Handles = w.Handles := by
  simp [AddCustomPropertyRow, RefreshCustomProperty_Handles]

theorem AddCustomPropertyRow_rows (D : ClassDecl E) (w : World E) (Text : E.FText)
    (ChildBuilder : IDetailChildrenBuilder E) :
    (AddCustomPropertyRow D w Text ChildBuilder).2 =
      ChildBuilder ++ [DetailRow.Custom Text w.This.CustomProperty.Visibility
        (w.TextBlocks.length + 1) w.ComboBoxes.length] := by
  simp [AddCustomPropertyRow, RefreshCustomProperty_This, RefreshCustomProperty_TextBlocks,
    RefreshCustomProperty_ComboBoxes_length]

theorem get_append_length {α : Type} (l : List α) (a : α) (n : Nat) (h : l.length = n) :
    (l ++ [a]).get? n = some a := by
  subst h
  simp [List.get?_eq_getElem?]

theorem CustomizeChildrenLoop_eq_foldl (D : ClassDecl E) (PropertyHandle : HandleId)
    (NumChildren : Nat) :
    ∀ (k ChildIndex : Nat) (s : World E × IDetailChildrenBuilder E),
      NumChildren - ChildIndex = k →
      CustomizeChildrenLoop D PropertyHandle NumChildren ChildIndex s =
        (List.range' ChildIndex k).foldl (LoopStep D PropertyHandle) s := by
  intro k
  induction k with
  | zero =>
    intro i s hk
    rw [CustomizeChildrenLoop]
    have : ¬ i < NumChildren := by omega
    simp [this]
  | succ k ih =>
    intro i s hk
    rw [CustomizeChildrenLoop]
    have hlt : i < NumChildren := by omega
    simp only [hlt, if_true, List.range'_succ, List.foldl_cons]
    rw [ih (i + 1) _ (by omega)]
    rfl

theorem CustomizeChildren_eq_foldl (D : ClassDecl E) (w : World E) (PropertyHandle : HandleId)
    (ChildBuilder : IDetailChildrenBuilder E) :
    CustomizeChildren D w PropertyHandle ChildBuilder =
      (List.range (w.Handles PropertyHandle).GetNumChildren).foldl (LoopStep D PropertyHandle)
        (LoopEntry w PropertyHandle, ChildBuilder) := by
  unfold CustomizeChildren
  simp only
  rw [CustomizeChildrenLoop_eq_foldl D PropertyHandle _ _ 0 _ rfl, List.range_eq_range']
  rfl

theorem ChildPropertyData_eq (D : ClassDecl E) (w v : World E) (PropertyHandle : HandleId)
    (i : Nat) (h : HandleId) (hHandles : v.Handles = w.Handles)
    (hChild : (w.Handles PropertyHandle).GetChildHandle i = some h) :
    ChildPropertyData D v PropertyHandle i = DataOfHandle D w h := by
  simp [ChildPropertyData, DataOfHandle, NameOfHandle, ValueOfHandle,
    FPropertyData.GetPropertyNameFromHandle, FPropertyData.GetProperty,
    FPropertyData.GetPropertyValueFromHandle, hHandles, hChild]

theorem OnCustomizeChildren_of_ne (D : ClassDecl E) (v : World E)
    (ChildBuilder : IDetailChildrenBuilder E) (PropertyData : FPropertyData E) (h : HandleId)
    (hValid : PropertyData.PropertyHandle = some h)
    (hName : PropertyData.PropertyName ≠ v.This.CustomProperty.PropertyName) :
    OnCustomizeChildren D v ChildBuilder PropertyData =
      ({ v with This := { v.This with
          DefaultPropertiesData := v.This.DefaultPropertiesData ++ [PropertyData] } },
        ChildBuilder ++
          [DetailRow.Property h true PropertyData.bIsEnabled PropertyData.Visibility]) := by
  simp [OnCustomizeChildren, hValid, hName]

theorem OnCustomizeChildren_of_eq (D : ClassDecl E) (v : World E)
    (ChildBuilder : IDetailChildrenBuilder E) (PropertyData : FPropertyData E) (h : HandleId)
    (hValid : PropertyData.PropertyHandle = some h)
    (hName : PropertyData.PropertyName = v.This.CustomProperty.PropertyName) :
    OnCustomizeChildren D v ChildBuilder PropertyData =
      AddCustomPropertyRow D { v with This := { v.This with CustomProperty := PropertyData } }
        (v.Handles h).GetPropertyDisplayName ChildBuilder := by
  simp [OnCustomizeChildren, hValid, hName]

theorem CustomCount_succ (w : World E) (Child : Nat → HandleId) (n : Nat) :
    CustomCount w Child (n + 1) =
      CustomCount w Child n + (if IsDesignated w Child n then 1 else 0) := by
  unfold CustomCount
  rw [List.range_succ, List.filter_append, List.length_append]
  cases hd : IsDesignated w Child n <;> simp [List.filter_cons, hd]

theorem LoopInvariant_entry (D : ClassDecl E) (w : World E) (PropertyHandle : HandleId)
    (ChildBuilder : IDetailChildrenBuilder E) (Child : Nat → HandleId) :
    LoopInvariant D w ChildBuilder Child 0 (LoopEntry w PropertyHandle, ChildBuilder) := by
  simp [LoopInvariant, LoopEntry, CustomCount]

theorem LoopInvariant_step (D : ClassDecl E) (w : World E) (PropertyHandle : HandleId)
    (ChildBuilder : IDetailChildrenBuilder E) (Child : Nat → HandleId) (n : Nat)
    (s : World E × IDetailChildrenBuilder E)
    (hChild : (w.Handles PropertyHandle).GetChildHandle n = some (Child n))
    (hInv : LoopInvariant D w ChildBuilder Child n s) :
    LoopInvariant D w ChildBuilder Child (n + 1) (LoopStep D PropertyHandle s n) := by
  obtain ⟨hHandles, hName, hRows, hData, hTexts, hCombos⟩ := hInv
  unfold LoopStep
  rw [ChildPropertyData_eq D w s.1 PropertyHandle n (Child n) hHandles hChild]
  by_cases hd : IsDesignated w Child n = true
  · have hEq : (DataOfHandle D w (Child n)).PropertyName =
        s.1.This.CustomProperty.PropertyName := by
      rw [hName]
      simpa [IsDesignated, DataOfHandle] using hd
    rw [OnCustomizeChildren_of_eq D s.1 s.2 _ (Child n) rfl hEq]
    refine ⟨?_, ?_, ?_, ?_, ?_, ?_⟩
    · rw [AddCustomPropertyRow_Handles]; exact hHandles
    · rw [AddCustomPropertyRow_This]; exact hEq.trans hName
    · rw [AddCustomPropertyRow_rows, hRows, List.range_succ, List.map_append,
        List.append_assoc]
      simp [RowOfChild, hd, hTexts, hCombos, hHandles, DataOfHandle, Nat.add_assoc]
    · rw [AddCustomPropertyRow_This, List.range_succ, List.filter_append]
      simp [hd, hData]
    · rw [AddCustomPropertyRow_TextBlocks, CustomCount_succ]
      simp [hd, hTexts]
      omega
    · rw [AddCustomPropertyRow_ComboBoxes, CustomCount_succ]
      simp [hd, hCombos, RefreshCustomProperty_ComboBoxes_length]
      omega
  · have hd0 : IsDesignated w Child n = false := by simpa using hd
    have hNe : (DataOfHandle D w (Child n)).PropertyName ≠
        s.1.This.CustomProperty.PropertyName := by
      rw [hName]
      simpa [IsDesignated, DataOfHandle] using hd0
    rw [OnCustomizeChildren_of_ne D s.1 s.2 _ (Child n) rfl hNe]
    refine ⟨hHandles, hName, ?_, ?_, ?_, ?_⟩
    · rw [hRows, List.range_succ, List.map_append, List.append_assoc]
      simp [RowOfChild, hd0, DataOfHandle]
    · simp only [hData, List.range_succ, List.filter_append, List.map_append]
      simp [hd0]
    · rw [CustomCount_succ]
      simp [hd0, hTexts]
    · rw [CustomCount_succ]
      simp [hd0, hCombos]

theorem LoopInvariant_foldl (D : ClassDecl E) (w : World E) (PropertyHandle : HandleId)
    (ChildBuilder : IDetailChildrenBuilder E) (Child : Nat → HandleId) (NumChildren : Nat)
    (hValid : ∀ i, i < NumChildren →
      (w.Handles PropertyHandle).GetChildHandle i = some (Child i)) :
    ∀ n, n ≤ NumChildren →
      LoopInvariant D w ChildBuilder Child n
        ((List.range n).foldl (LoopStep D PropertyHandle)
          (LoopEntry w PropertyHandle, ChildBuilder)) := by
  intro n
  induction n with
  | zero =>
    intro _
    simpa using LoopInvariant_entry D w PropertyHandle ChildBuilder Child
  | succ n ih =>
    intro hn
    rw [List.range_succ, List.foldl_append]
    exact LoopInvariant_step D w PropertyHandle ChildBuilder Child n _
      (hValid n (by omega)) (ih (by omega))

end Lemmas

/-! ## The claims -/

section Claims

variable {E : Engine}

/-- C1: for a child property data with a valid handle whose name differs from the
custom property's name, `OnCustomizeChildren` appends exactly one default row for
that handle (auto-expanded, with the child's `bIsEnabled` and `Visibility`) and no
custom row, appends the property data at the end of `DefaultPropertiesData`, and
leaves `CustomProperty` and both widget references unchanged. -/
theorem OnCustomizeChildren_other_property (D : ClassDecl E) (w : World E)
    (ChildBuilder : IDetailChildrenBuilder E) (PropertyData : FPropertyData E)
    (Handle : HandleId) (hValid : PropertyData.PropertyHandle = some Handle)
    (hName : PropertyData.PropertyName ≠ w.This.CustomProperty.PropertyName) :
    (OnCustomizeChildren D w ChildBuilder PropertyData).2 =
        ChildBuilder ++
          [DetailRow.Property Handle true PropertyData.bIsEnabled PropertyData.Visibility] ∧
      (OnCustomizeChildren D w ChildBuilder PropertyData).1.This.DefaultPropertiesData =
        w.This.DefaultPropertiesData ++ [PropertyData] ∧
      (OnCustomizeChildren D w ChildBuilder PropertyData).1.This.CustomProperty =
        w.This.CustomProperty ∧
      (OnCustomizeChildren D w ChildBuilder PropertyData).1.This.RowTextWidgetInternal =
        w.This.RowTextWidgetInternal ∧
      (OnCustomizeChildren D w ChildBuilder PropertyData).1.This.SearchableComboBoxInternal =
        w.This.SearchableComboBoxInternal := by
  simp [OnCustomizeChildren, hValid, hName]

/-- Witness of C1 on the demo world: the child `Row` is not the custom property `Column`. -/
theorem OnCustomizeChildren_other_property_witness :
    (OnCustomizeChildren DemoDecl DemoWorld [] DemoRowData).2 =
        [] ++ [DetailRow.Property 1 true DemoRowData.bIsEnabled DemoRowData.Visibility] ∧
      (OnCustomizeChildren DemoDecl DemoWorld [] DemoRowData).1.This.DefaultPropertiesData =
        DemoWorld.This.DefaultPropertiesData ++ [DemoRowData] ∧
      (OnCustomizeChildren DemoDecl DemoWorld [] DemoRowData).1.This.CustomProperty =
        DemoWorld.This.CustomProperty ∧
      (OnCustomizeChildren DemoDecl DemoWorld [] DemoRowData).1.This.RowTextWidgetInternal =
        DemoWorld.This.RowTextWidgetInternal ∧
      (OnCustomizeChildren DemoDecl DemoWorld [] DemoRowData).1.This.SearchableComboBoxInternal =
        DemoWorld.This.SearchableComboBoxInternal :=
  OnCustomizeChildren_other_property DemoDecl DemoWorld [] DemoRowData 1 rfl (by decide)

/-- C2: for a child property data with a valid handle whose name equals the custom
property's name, `OnCustomizeChildren` stores the property data in `CustomProperty`,
appends exactly one custom row and no default row, the value content of that row
being a newly built combo box whose options source is
`SearchableComboBoxValuesInternal`, and leaves `DefaultPropertiesData` unchanged. -/
theorem OnCustomizeChildren_custom_property (D : ClassDecl E) (w : World E)
    (ChildBuilder : IDetailChildrenBuilder E) (PropertyData : FPropertyData E)
    (Handle : HandleId) (hValid : PropertyData.PropertyHandle = some Handle)
    (hName : PropertyData.PropertyName = w.This.CustomProperty.PropertyName) :
    (OnCustomizeChildren D w ChildBuilder PropertyData).1.This.CustomProperty = PropertyData ∧
      (OnCustomizeChildren D w ChildBuilder PropertyData).2 =
        ChildBuilder ++
          [DetailRow.Custom (w.Handles Handle).GetPropertyDisplayName PropertyData.Visibility
            (w.TextBlocks.length + 1) w.ComboBoxes.length] ∧
      (OnCustomizeChildren D w ChildBuilder PropertyData).1.ComboBoxes.get?
          w.ComboBoxes.length =
        some (some {
          OptionsSource := some OptionsArray.SearchableComboBoxValuesInternal
          GeneratesTextBlock := true
          OnSelectionChanged := some Delegate.OnCustomPropertyChosen
          ContentPadding := 2
          MaxListHeight := 200
          IsEnabled := PropertyData.bIsEnabled
          Content := some w.TextBlocks.length
          RefreshOptionsCalls := 0 }) ∧
      (OnCustomizeChildren D w ChildBuilder PropertyData).1.This.DefaultPropertiesData =
        w.This.DefaultPropertiesData := by
  unfold OnCustomizeChildren
  simp only [hValid, hName, ne_eq, not_true_eq_false, if_false]
  refine ⟨?_, ?_, ?_, ?_⟩
  · rw [AddCustomPropertyRow_This]
  · rw [AddCustomPropertyRow_rows]
  · rw [AddCustomPropertyRow_ComboBoxes]
    exact get_append_length _ _ _ (RefreshCustomProperty_ComboBoxes_length _)
  · rw [AddCustomPropertyRow_This]

/-- Witness of C2 on the demo world: the child `Column` is the custom property. -/
theorem OnCustomizeChildren_custom_property_witness :
    (OnCustomizeChildren DemoDecl DemoWorld [] DemoColumnData).1.This.CustomProperty =
        DemoColumnData ∧
      (OnCustomizeChildren DemoDecl DemoWorld [] DemoColumnData).2 =
        [] ++ [DetailRow.Custom (DemoWorld.Handles 2).GetPropertyDisplayName
          DemoColumnData.Visibility (DemoWorld.TextBlocks.length + 1)
          DemoWorld.ComboBoxes.length] ∧
      (OnCustomizeChildren DemoDecl DemoWorld [] DemoColumnData).1.ComboBoxes.get?
          DemoWorld.ComboBoxes.length =
        some (some {
          OptionsSource := some OptionsArray.SearchableComboBoxValuesInternal
          GeneratesTextBlock := true
          OnSelectionChanged := some Delegate.OnCustomPropertyChosen
          ContentPadding := 2
          MaxListHeight := 200
          IsEnabled := DemoColumnData.bIsEnabled
          Content := some DemoWorld.TextBlocks.length
          RefreshOptionsCalls := 0 }) ∧
      (OnCustomizeChildren DemoDecl DemoWorld [] DemoColumnData).1.This.DefaultPropertiesData =
        DemoWorld.This.DefaultPropertiesData :=
  OnCustomizeChildren_custom_property DemoDecl DemoWorld [] DemoColumnData 2 rfl rfl

/-- C3: for a property handle whose `N` children all have valid child handles,
`CustomizeChildren` runs the loop body on the child indices `0 .. N-1`, each once and
in increasing order; it appends exactly `N` rows, the row of child `i` being a custom
row when the name of child `i` equals the designated custom property name and a default
row for the handle of child `i` otherwise; and it extends `DefaultPropertiesData` by
exactly the non-designated children, in increasing index order, each with
`PropertyName` and `PropertyValue` read from its own handle. -/
theorem CustomizeChildren_rows (D : ClassDecl E) (w : World E) (PropertyHandle : HandleId)
    (ChildBuilder : IDetailChildrenBuilder E) (Child : Nat → HandleId)
    (hValid : ∀ i, i < (w.Handles PropertyHandle).GetNumChildren →
      (w.Handles PropertyHandle).GetChildHandle i = some (Child i)) :
    CustomizeChildren D w PropertyHandle ChildBuilder =
        (List.range (w.Handles PropertyHandle).GetNumChildren).foldl
          (LoopStep D PropertyHandle) (LoopEntry w PropertyHandle, ChildBuilder) ∧
      (CustomizeChildren D w PropertyHandle ChildBuilder).2 =
        ChildBuilder ++
          (List.range (w.Handles PropertyHandle).GetNumChildren).map (RowOfChild D w Child) ∧
      (CustomizeChildren D w PropertyHandle ChildBuilder).2.length =
        ChildBuilder.length + (w.Handles PropertyHandle).GetNumChildren ∧
      (CustomizeChildren D w PropertyHandle ChildBuilder).1.This.DefaultPropertiesData =
        w.This.DefaultPropertiesData ++
          ((List.range (w.Handles PropertyHandle).GetNumChildren).filter
            (fun i => !IsDesignated w Child i)).map (fun i => DataOfHandle D w (Child i)) := by
  have hInv := LoopInvariant_foldl D w PropertyHandle ChildBuilder Child
    (w.Handles PropertyHandle).GetNumChildren hValid _ (Nat.le_refl _)
  rw [← CustomizeChildren_eq_foldl] at hInv
  obtain ⟨_, _, hRows, hData, _, _⟩ := hInv
  refine ⟨CustomizeChildren_eq_foldl D w PropertyHandle ChildBuilder, hRows, ?_, hData⟩
  rw [hRows]
  simp

/-- Witness of C3 on the demo world: handle `0` has the three children `Row`, `Column`
and `Level`, of which `Column` is the custom property. -/
theorem CustomizeChildren_rows_witness :
    (CustomizeChildren DemoDecl DemoWorld 0 []).2 =
        [DetailRow.Property 1 true true true, DetailRow.Custom "Column" true 2 1,
         DetailRow.Property 3 true true true] ∧
      (CustomizeChildren DemoDecl DemoWorld 0 []).2.length = 3 ∧
      (CustomizeChildren DemoDecl DemoWorld 0 []).1.This.DefaultPropertiesData =
        [{ PropertyName := "Row", PropertyValue := "4", PropertyHandle := some 1,
           bIsEnabled := true, Visibility := true },
         { PropertyName := "Level", PropertyValue := "Main", PropertyHandle := some 3,
           bIsEnabled := true, Visibility := true }] :=
  ⟨(CustomizeChildren_rows DemoDecl DemoWorld 0 [] (fun i => i + 1) (by decide)).2.1.trans rfl,
    (CustomizeChildren_rows DemoDecl DemoWorld 0 [] (fun i => i + 1) (by decide)).2.2.1.trans rfl,
    (CustomizeChildren_rows DemoDecl DemoWorld 0 [] (fun i => i + 1) (by decide)).2.2.2.trans rfl⟩

/-- C4: `SetCustomPropertyEnabled(bEnabled)` changes nothing when `bEnabled` is true
and `IsAllowedEnableCustomProperty()` is false; in every other case
`CustomProperty.bIsEnabled` becomes `bEnabled` and a combo box that is still alive
gets `bEnabled` as its enabled state. -/
theorem SetCustomPropertyEnabled_guarded (D : ClassDecl E) (w : World E) (bEnabled : Bool) :
    (bEnabled = true ∧ D.IsAllowedEnableCustomProperty w = false →
        SetCustomPropertyEnabled D w bEnabled = w) ∧
      (¬(bEnabled = true ∧ D.IsAllowedEnableCustomProperty w = false) →
        (SetCustomPropertyEnabled D w bEnabled).This.CustomProperty.bIsEnabled = bEnabled ∧
        ∀ (i : WidgetId) (ComboBox : SSearchableComboBox),
          Pin w.ComboBoxes w.This.SearchableComboBoxInternal = some (i, ComboBox) →
          (SetCustomPropertyEnabled D w bEnabled).ComboBoxes.get? i =
            some (some { ComboBox with IsEnabled := bEnabled })) := by
  constructor
  · rintro ⟨hb, ha⟩
    simp [SetCustomPropertyEnabled, hb, ha]
  · intro hg
    have hc : (bEnabled && !D.IsAllowedEnableCustomProperty w) = false := by
      cases bEnabled <;> cases hA : D.IsAllowedEnableCustomProperty w <;> simp_all
    unfold SetCustomPropertyEnabled
    simp only [hc, Bool.false_eq_true, if_false]
    constructor
    · trivial
    · intro i ComboBox hPin
      simp only [hPin]
      exact get_set_self _ _ _ (Pin_lt hPin)

/-- Witness of C4 on the demo world, where enabling is forbidden (no outer object is
known) and the combo box is alive: enabling changes nothing, disabling takes effect. -/
theorem SetCustomPropertyEnabled_guarded_witness :
    SetCustomPropertyEnabled DemoDecl DemoWorld true = DemoWorld ∧
      (SetCustomPropertyEnabled DemoDecl DemoWorld false).This.CustomProperty.bIsEnabled = false ∧
      (SetCustomPropertyEnabled DemoDecl DemoWorld false).ComboBoxes.get? 0 =
        some (some { OptionsSource := some OptionsArray.SearchableComboBoxValuesInternal,
                     GeneratesTextBlock := true,
                     OnSelectionChanged := some Delegate.OnCustomPropertyChosen,
                     ContentPadding := 2, MaxListHeight := 200, IsEnabled := false,
                     Content := some 0, RefreshOptionsCalls := 0 }) :=
  ⟨(SetCustomPropertyEnabled_guarded DemoDecl DemoWorld true).1 ⟨rfl, rfl⟩,
    ((SetCustomPropertyEnabled_guarded DemoDecl DemoWorld false).2 (by decide)).1,
    ((SetCustomPropertyEnabled_guarded DemoDecl DemoWorld false).2 (by decide)).2 0 _ rfl⟩

/-- C5: from every starting state, whatever `IsAllowedEnableCustomProperty()` returns
and whether or not the widgets are alive, after `InvalidateCustomProperty` the custom
property has `bIsEnabled = false` and `PropertyValue = NAME_None`; `NAME_None` is
written to the property handle when it is valid, and a live combo box is disabled. -/
theorem InvalidateCustomProperty_deactivates (D : ClassDecl E) (w : World E) :
    (InvalidateCustomProperty D w).This.CustomProperty.bIsEnabled = false ∧
      (InvalidateCustomProperty D w).This.CustomProperty.PropertyValue = E.NAME_None ∧
      (∀ Handle : HandleId, w.This.CustomProperty.PropertyHandle = some Handle →
        (InvalidateCustomProperty D w).HandleCalls =
          w.HandleCalls ++ [HandleCall.SetValue Handle E.NAME_None]) ∧
      (∀ (i : WidgetId) (ComboBox : SSearchableComboBox),
        Pin w.ComboBoxes w.This.SearchableComboBoxInternal = some (i, ComboBox) →
        (InvalidateCustomProperty D w).ComboBoxes.get? i =
          some (some { ComboBox with IsEnabled := false })) := by
  unfold InvalidateCustomProperty
  simp only [SetCustomPropertyValue_This, SetCustomPropertyValue_HandleCalls,
    SetCustomPropertyValue_ComboBoxes, SetCustomPropertyEnabled_false]
  refine ⟨trivial, trivial, ?_, ?_⟩
  · intro Handle hHandle
    simp only [hHandle]
  · intro i ComboBox hPin
    simp only [hPin]
    exact get_set_self _ _ _ (Pin_lt hPin)

/-- Witness of C5 on the demo world, whose handle is valid and whose combo box is alive. -/
theorem InvalidateCustomProperty_deactivates_witness :
    (InvalidateCustomProperty DemoDecl DemoWorld).HandleCalls =
        DemoWorld.HandleCalls ++ [HandleCall.SetValue 2 DemoEngine.NAME_None] ∧
      (InvalidateCustomProperty DemoDecl DemoWorld).ComboBoxes.get? 0 =
        some (some { OptionsSource := some OptionsArray.SearchableComboBoxValuesInternal,
                     GeneratesTextBlock := true,
                     OnSelectionChanged := some Delegate.OnCustomPropertyChosen,
                     ContentPadding := 2, MaxListHeight := 200, IsEnabled := false,
                     Content := some 0, RefreshOptionsCalls := 0 }) :=
  ⟨(InvalidateCustomProperty_deactivates DemoDecl DemoWorld).2.2.1 2 rfl,
    (InvalidateCustomProperty_deactivates DemoDecl DemoWorld).2.2.2 0 _ rfl⟩

/-- C6: `SetCustomPropertyValue(Value)` stores `Value` in `CustomProperty.PropertyValue`,
calls `SetValue(Value)` on the custom property's handle when that handle is valid (and
makes no handle call otherwise), sets the text of a row text widget that is still alive
to `FText::FromString(Value.ToString())`, and leaves `PropertyName`, `bIsEnabled`,
`Visibility`, `DefaultPropertiesData` and every combo box unchanged. -/
theorem SetCustomPropertyValue_effect (w : World E) (Value : E.FName) :
    (SetCustomPropertyValue w Value).This.CustomProperty.PropertyValue = Value ∧
      (∀ Handle : HandleId, w.This.CustomProperty.PropertyHandle = some Handle →
        (SetCustomPropertyValue w Value).HandleCalls =
          w.HandleCalls ++ [HandleCall.SetValue Handle Value]) ∧
      (w.This.CustomProperty.PropertyHandle = none →
        (SetCustomPropertyValue w Value).HandleCalls = w.HandleCalls) ∧
      (∀ (i : WidgetId) (RowTextWidget : STextBlock E),
        Pin w.TextBlocks w.This.RowTextWidgetInternal = some (i, RowTextWidget) →
        (SetCustomPropertyValue w Value).TextBlocks.get? i =
          some (some { RowTextWidget with Text := E.FromString (E.ToString Value) })) ∧
      (SetCustomPropertyValue w Value).This.CustomProperty.PropertyName =
        w.This.CustomProperty.PropertyName ∧
      (SetCustomPropertyValue w Value).This.CustomProperty.bIsEnabled =
        w.This.CustomProperty.bIsEnabled ∧
      (SetCustomPropertyValue w Value).This.CustomProperty.Visibility =
        w.This.CustomProperty.Visibility ∧
      (SetCustomPropertyValue w Value).This.DefaultPropertiesData =
        w.This.DefaultPropertiesData ∧
      (SetCustomPropertyValue w Value).ComboBoxes = w.ComboBoxes := by
  simp only [SetCustomPropertyValue_This, SetCustomPropertyValue_HandleCalls,
    SetCustomPropertyValue_ComboBoxes, SetCustomPropertyValue_TextBlocks]
  refine ⟨trivial, ?_, ?_, ?_, trivial, trivial, trivial, trivial, trivial⟩
  · intro Handle hHandle
    simp only [hHandle]
  · intro hHandle
    simp only [hHandle]
  · intro i RowTextWidget hPin
    simp only [hPin]
    exact get_set_self _ _ _ (Pin_lt hPin)

/-- Witness of C6 on the demo world, whose handle is valid and whose row text is alive. -/
theorem SetCustomPropertyValue_effect_witness :
    (SetCustomPropertyValue DemoWorld "6").HandleCalls =
        DemoWorld.HandleCalls ++ [HandleCall.SetValue 2 "6"] ∧
      (SetCustomPropertyValue DemoWorld "6").TextBlocks.get? 0 =
        some (some { Text := "6", DetailFont := false }) :=
  ⟨(SetCustomPropertyValue_effect DemoWorld "6").2.1 2 rfl,
    (SetCustomPropertyValue_effect DemoWorld "6").2.2.2.1 0 _ rfl⟩

end Claims

end MyPropertyTypeCustomization
